import Mathlib

set_option maxHeartbeats 1000000

/-!
Shallow embedding of the MqttUtility Arduino library
(Projects/common/libraries/Mqtt_Utility_v1/src/Mqtt_Utility.cpp, version 1,
and Projects/MKR1010_Indoor_Plant_Monitor_V2/lib/Mqtt_Utility/Mqtt_Utility.cpp,
version 1.1).

The WiFi / MqttClient collaborators are modelled by an environment record;
every transport call emitted by a method is collected into a trace so that
claims about the number and kind of I/O calls can be stated.
-/

/- Status codes, from utils/mqttutility_definitions.h (util_conn_status). -/

def CONN_NO_ERR : Int := 123

def CONN_NO_PARAMS : Int := 50

def CONN_OK : Int := 0

def CONN_NO_MQTT : Int := 1

def CONN_NO_WIFI : Int := 2

def CONN_CONNECTED : Int := 3

def CONN_ERR_MQTT : Int := 4

def CONN_WIFI_TIMEOUT : Int := 5

def CONN_NOT_STARTED : Int := 6

/-- The MqttUtility object state: fields _ssid, _psk, _host, _port, _retry,
_init (called _connected in version 1.1), _mqttErr, _status.  C strings are
`Option String` (`none` = NULL).  The _user/_pass members and the client
pointers are not modelled: no claim touches them. -/
structure MqttUtility where
  ssid : Option String
  psk : Option String
  host : Option String
  port : Nat
  retry : Nat
  init : Bool
  mqttErr : Int
  status : Int
deriving DecidableEq

/-- Behaviour of the external WiFi / MqttClient collaborators during one call:
`joinResult k` is the outcome of the k-th WiFi.begin call (true = WL_CONNECTED),
`wifiConnected` is what WiFi.status() reports, `mqttConnected` is what
_mqttClient->connected() reports, `mqttConnectOk` is the outcome of
_mqttClient->connect(host, port), and `mqttConnectError` is
_mqttClient->connectError(). -/
structure Env where
  joinResult : Nat → Bool
  wifiConnected : Bool
  mqttConnected : Bool
  mqttConnectOk : Bool
  mqttConnectError : Int

/-- One transport call, as recorded in a trace: WiFi.begin(ssid),
WiFi.begin(ssid, psk), WiFi.end(), or _mqttClient->connect(host, port). -/
inductive TraceEvent where
  | joinOpen (ssid : Option String)
  | joinAuth (ssid : Option String) (psk : Option String)
  | wifiEnd
  | brokerConnect (host : Option String) (port : Nat)
deriving DecidableEq

/-- Outcome of a WiFi join loop: joined / timed out after the given total
number of WiFi.begin calls, or the fuel bound was hit (the C++ loop would
still be running). -/
inductive JoinOutcome where
  | joined (attempts : Nat)
  | timedOut (attempts : Nat)
  | outOfFuel
deriving DecidableEq

/-- The join loop of MqttUtility::begin (Mqtt_Utility_v1 lines 53-60 / 62-69):
`while (WiFi.begin(..) != WL_CONNECTED) { if (_retry > 0 && count >= _retry)
return timeout; count++; delay(5000); }`.  `count` counts failed attempts so
far; the returned attempt number counts WiFi.begin calls. -/
def beginJoinLoop (join : Nat → Bool) (retry : Nat) : Nat → Nat → JoinOutcome
  | _, 0 => .outOfFuel
  | count, fuel + 1 =>
    if join count then .joined (count + 1)
    else if 0 < retry ∧ retry ≤ count then .timedOut (count + 1)
    else beginJoinLoop join retry (count + 1) fuel

/-- The join loop of MqttUtility::reconnect (Mqtt_Utility_v1 lines 196-201):
identical shape, but the timeout test is `_retry == count` instead of
`count >= _retry`. -/
def reconnectJoinLoop (join : Nat → Bool) (retry : Nat) : Nat → Nat → JoinOutcome
  | _, 0 => .outOfFuel
  | count, fuel + 1 =>
    if join count then .joined (count + 1)
    else if 0 < retry ∧ retry = count then .timedOut (count + 1)
    else reconnectJoinLoop join retry (count + 1) fuel

/-- The psk test of version 1 begin (line 52):
`if (_psk == NULL || strcmp(_psk, ""))` - true selects the WiFi.begin(_ssid)
branch.  strcmp(_psk, "") is nonzero exactly when the psk is NON-empty. -/
def pskOpenV1 (psk : Option String) : Bool :=
  match psk with
  | none => true
  | some p => p != ""

/-- The psk test of version 1.1 begin (MKR1010_V2 line 63):
`if (_psk == NULL || strcmp(_psk, "") == 0)` - true selects WiFi.begin(_ssid). -/
def pskOpenV11 (psk : Option String) : Bool :=
  match psk with
  | none => true
  | some p => p == ""

/-- The WiFi.begin call made by version 1 begin: the open one-argument form
in the `if` branch of line 52, the authenticated form in the `else` branch. -/
def pskEventV1 (u : MqttUtility) : TraceEvent :=
  if pskOpenV1 u.psk then .joinOpen u.ssid else .joinAuth u.ssid u.psk

/-- The WiFi.begin call made by version 1.1 begin (MKR1010_V2 line 63). -/
def pskEventV11 (u : MqttUtility) : TraceEvent :=
  if pskOpenV11 u.psk then .joinOpen u.ssid else .joinAuth u.ssid u.psk

/-- MqttUtility::begin of the version 1 library (Mqtt_Utility_v1 lines 48-82).
Returns none when the join loop is still running at the fuel bound, otherwise
the int result, the updated object, and the trace of transport calls. -/
def beginV1 (u : MqttUtility) (env : Env) (fuel : Nat) :
    Option (Int × MqttUtility × List TraceEvent) :=
  if u.ssid = none ∨ u.host = none then some (CONN_NO_PARAMS, u, [])
  else
    let ev : TraceEvent := pskEventV1 u
    match beginJoinLoop env.joinResult u.retry 0 fuel with
    | .outOfFuel => none
    | .timedOut n =>
      some (CONN_WIFI_TIMEOUT, { u with status := CONN_WIFI_TIMEOUT },
        List.replicate n ev)
    | .joined n =>
      if env.mqttConnectOk then
        some (CONN_CONNECTED, { u with init := true, status := CONN_CONNECTED },
          List.replicate n ev ++ [.brokerConnect u.host u.port])
      else
        some (CONN_ERR_MQTT,
          { u with mqttErr := env.mqttConnectError, status := CONN_ERR_MQTT },
          List.replicate n ev ++ [.brokerConnect u.host u.port, .wifiEnd])

/-- MqttUtility::begin of the version 1.1 library (MKR1010_V2 lines 59-93):
identical to version 1 except for the corrected psk test. -/
def beginV11 (u : MqttUtility) (env : Env) (fuel : Nat) :
    Option (Int × MqttUtility × List TraceEvent) :=
  if u.ssid = none ∨ u.host = none then some (CONN_NO_PARAMS, u, [])
  else
    let ev : TraceEvent := pskEventV11 u
    match beginJoinLoop env.joinResult u.retry 0 fuel with
    | .outOfFuel => none
    | .timedOut n =>
      some (CONN_WIFI_TIMEOUT, { u with status := CONN_WIFI_TIMEOUT },
        List.replicate n ev)
    | .joined n =>
      if env.mqttConnectOk then
        some (CONN_CONNECTED, { u with init := true, status := CONN_CONNECTED },
          List.replicate n ev ++ [.brokerConnect u.host u.port])
      else
        some (CONN_ERR_MQTT,
          { u with mqttErr := env.mqttConnectError, status := CONN_ERR_MQTT },
          List.replicate n ev ++ [.brokerConnect u.host u.port, .wifiEnd])

/-- MqttUtility::getConnectionStatus (Mqtt_Utility_v1 lines 178-183). -/
def getConnectionStatus (env : Env) : Int :=
  if env.wifiConnected then
    if env.mqttConnected then CONN_OK else CONN_NO_MQTT
  else CONN_NO_WIFI

/-- MqttUtility::reconnect of the version 1 library (Mqtt_Utility_v1 lines
185-209).  The switch assigns no object field; the default case falls through
to `return CONN_OK`.  The CONN_NO_WIFI case always calls
WiFi.begin(_ssid, _psk). -/
def reconnectV1 (u : MqttUtility) (env : Env) (status : Int) (fuel : Nat) :
    Option (Int × List TraceEvent) :=
  if status = CONN_OK then some (CONN_OK, [])
  else if status = CONN_NO_MQTT then
    if env.mqttConnectOk then some (CONN_OK, [.brokerConnect u.host u.port])
    else some (CONN_ERR_MQTT, [.brokerConnect u.host u.port, .wifiEnd])
  else if status = CONN_NO_WIFI then
    match reconnectJoinLoop env.joinResult u.retry 0 fuel with
    | .outOfFuel => none
    | .timedOut n =>
      some (CONN_WIFI_TIMEOUT, List.replicate n (.joinAuth u.ssid u.psk))
    | .joined n =>
      if env.mqttConnectOk then
        some (CONN_OK,
          List.replicate n (.joinAuth u.ssid u.psk) ++
            [.brokerConnect u.host u.port])
      else
        some (CONN_ERR_MQTT,
          List.replicate n (.joinAuth u.ssid u.psk) ++
            [.brokerConnect u.host u.port, .wifiEnd])
  else some (CONN_OK, [])

/-- MqttUtility::checkConnection (Mqtt_Utility_v1 lines 100-104):
`if (!_init) return CONN_NOT_STARTED; int status = getConnectionStatus();
return reconnect(status);`.  Neither it nor reconnect assigns _status or
_mqttErr, so the returned object is the input object. -/
def checkConnectionV1 (u : MqttUtility) (env : Env) (fuel : Nat) :
    Option (Int × MqttUtility × List TraceEvent) :=
  if !u.init then some (CONN_NOT_STARTED, u, [])
  else
    match reconnectV1 u env (getConnectionStatus env) fuel with
    | none => none
    | some (r, tr) => some (r, u, tr)

/-- MqttUtility::setWifiRetry (Mqtt_Utility_v1 lines 151-155, identical in
version 1.1): `if (i > 100 || i < 0) return false; _retry = i; return true;`.
The short argument is modelled as Int. -/
def setWifiRetry (u : MqttUtility) (i : Int) : Bool × MqttUtility :=
  if i > 100 ∨ i < 0 then (false, u)
  else (true, { u with retry := i.toNat })

/-- The mdev record (utils/mqttutility_definitions.h): one device
configuration per sensor channel. -/
structure Mdev where
  device_class : String
  expires_after : Nat
  name : String
  state_topic : String
  unique_id : String
  unit_of_measurement : String
  value_template : String
  configuration_topic : String
deriving DecidableEq

/-- A JSON value appearing in a discovery payload. -/
inductive JVal where
  | str (s : String)
  | num (n : Nat)
deriving DecidableEq

/-- The JsonDocument built by MqttUtility::configureTopic(mdev*) of the
version 1 library (Mqtt_Utility_v1 lines 109-116), as an insertion-ordered
key/value list.  dev_cla is always set. -/
def configureTopicDocV1 (d : Mdev) : List (String × JVal) :=
  [("dev_cla", .str d.device_class),
   ("exp_aft", .num d.expires_after),
   ("name", .str d.name),
   ("stat_t", .str d.state_topic),
   ("uniq_id", .str d.unique_id),
   ("unit_of_meas", .str d.unit_of_measurement),
   ("val_tpl", .str d.value_template)]

/-- The JsonDocument built by MqttUtility::configureTopic(mdev) of the
version 1.1 library (MKR1010_V2 lines 152-160): dev_cla is set only when
strcmp(dev_cla, "None") != 0. -/
def configureTopicDocV11 (d : Mdev) : List (String × JVal) :=
  (if d.device_class ≠ "None" then [("dev_cla", JVal.str d.device_class)]
   else []) ++
  [("exp_aft", .num d.expires_after),
   ("name", .str d.name),
   ("stat_t", .str d.state_topic),
   ("uniq_id", .str d.unique_id),
   ("unit_of_meas", .str d.unit_of_measurement),
   ("val_tpl", .str d.value_template)]

/-- A trace event is a WiFi join attempt. -/
def isJoinEvent : TraceEvent → Bool
  | .joinOpen _ => true
  | .joinAuth _ _ => true
  | _ => false

/-- A trace event is a broker connect call. -/
def isBrokerEvent : TraceEvent → Bool
  | .brokerConnect _ _ => true
  | _ => false

/-- Number of WiFi join attempts in a trace. -/
def joinCount (tr : List TraceEvent) : Nat :=
  (tr.filter isJoinEvent).length

/-- Number of broker connect calls in a trace. -/
def brokerCount (tr : List TraceEvent) : Nat :=
  (tr.filter isBrokerEvent).length

/-- Repeated checkConnection calls, one environment per call, threading the
object state; a call still running at the fuel bound ends the sequence. -/
def iterateChecks (fuel : Nat) : MqttUtility → List Env → MqttUtility
  | u, [] => u
  | u, e :: es =>
    match checkConnectionV1 u e fuel with
    | some (_, u2, _) => iterateChecks fuel u2 es
    | none => u

/-! ## Lemmas about the join loops -/

/-- A timeout can only come out of a loop run with a positive retry budget. -/
theorem beginJoinLoop_timedOut_pos (join : Nat → Bool) (retry : Nat) :
    ∀ fuel count n, beginJoinLoop join retry count fuel = .timedOut n → 0 < retry := by
  intro fuel
  induction fuel with
  | zero => intro count n h; simp [beginJoinLoop] at h
  | succ f ih =>
    intro count n h
    unfold beginJoinLoop at h
    split at h
    · simp at h
    · split at h
      · omega
      · exact ih (count + 1) n h

/-- With an always-failing join and a positive budget b, the begin loop times
out after exactly b + 1 WiFi.begin calls. -/
theorem beginJoinLoop_allFail (join : Nat → Bool) (b : Nat)
    (hb : 0 < b) (hfail : ∀ k, join k = false) :
    ∀ fuel count, count ≤ b → b + 1 - count ≤ fuel →
      beginJoinLoop join b count fuel = .timedOut (b + 1) := by
  intro fuel
  induction fuel with
  | zero => intro count h1 h2; omega
  | succ f ih =>
    intro count h1 h2
    unfold beginJoinLoop
    rw [hfail count]
    simp only [Bool.false_eq_true, if_false]
    by_cases hc : count = b
    · subst hc
      simp [hb]
    · have hlt : count < b := by omega
      have : ¬ (0 < b ∧ b ≤ count) := by omega
      rw [if_neg this]
      exact ih (count + 1) (by omega) (by omega)

/-- With an always-failing join and a positive budget b, the reconnect loop
also times out after exactly b + 1 WiFi.begin calls. -/
theorem reconnectJoinLoop_allFail (join : Nat → Bool) (b : Nat)
    (hb : 0 < b) (hfail : ∀ k, join k = false) :
    ∀ fuel count, count ≤ b → b + 1 - count ≤ fuel →
      reconnectJoinLoop join b count fuel = .timedOut (b + 1) := by
  intro fuel
  induction fuel with
  | zero => intro count h1 h2; omega
  | succ f ih =>
    intro count h1 h2
    unfold reconnectJoinLoop
    rw [hfail count]
    simp only [Bool.false_eq_true, if_false]
    by_cases hc : count = b
    · subst hc
      simp [hb]
    · have : ¬ (0 < b ∧ b = count) := by omega
      rw [if_neg this]
      exact ih (count + 1) (by omega) (by omega)

/-- With budget 0 and a join that fails on every attempt before N and
succeeds at N, the begin loop joins after exactly N + 1 WiFi.begin calls. -/
theorem beginJoinLoop_firstSuccess (join : Nat → Bool) (N : Nat)
    (hbefore : ∀ k, k < N → join k = false) (hN : join N = true) :
    ∀ fuel count, count ≤ N → N + 1 - count ≤ fuel →
      beginJoinLoop join 0 count fuel = .joined (N + 1) := by
  intro fuel
  induction fuel with
  | zero => intro count h1 h2; omega
  | succ f ih =>
    intro count h1 h2
    unfold beginJoinLoop
    by_cases hc : count = N
    · subst hc; simp [hN]
    · have hlt : count < N := by omega
      rw [hbefore count hlt]
      simp only [Bool.false_eq_true, if_false]
      have : ¬ ((0 : Nat) < 0 ∧ 0 ≤ count) := by omega
      rw [if_neg this]
      exact ih (count + 1) (by omega) (by omega)

/-- With budget 0 and an always-failing join, the begin loop exhausts any
fuel: the C++ loop never exits. -/
theorem beginJoinLoop_allFail_zero (join : Nat → Bool)
    (hfail : ∀ k, join k = false) :
    ∀ fuel count, beginJoinLoop join 0 count fuel = .outOfFuel := by
  intro fuel
  induction fuel with
  | zero => intro count; rfl
  | succ f ih =>
    intro count
    unfold beginJoinLoop
    rw [hfail count]
    simp only [Bool.false_eq_true, if_false]
    have : ¬ ((0 : Nat) < 0 ∧ 0 ≤ count) := by omega
    rw [if_neg this]
    exact ih (count + 1)

/-! ## Lemmas about traces -/

theorem joinCount_replicate (n : Nat) (e : TraceEvent) (he : isJoinEvent e = true) :
    joinCount (List.replicate n e) = n := by
  induction n with
  | zero => rfl
  | succ m ih =>
    simp only [joinCount, List.replicate_succ, List.filter_cons, he, if_true,
      List.length_cons] at *
    omega

theorem joinCount_append (a b : List TraceEvent) :
    joinCount (a ++ b) = joinCount a + joinCount b := by
  simp [joinCount, List.filter_append]

theorem brokerCount_replicate (n : Nat) (e : TraceEvent)
    (he : isBrokerEvent e = false) :
    brokerCount (List.replicate n e) = 0 := by
  induction n with
  | zero => rfl
  | succ m ih =>
    simp only [brokerCount, List.replicate_succ, List.filter_cons, he] at *
    simpa using ih

theorem brokerCount_append (a b : List TraceEvent) :
    brokerCount (a ++ b) = brokerCount a + brokerCount b := by
  simp [brokerCount, List.filter_append]

/-! ## Projections of a call result -/

/-- The int code returned by a begin / checkConnection call (none while the
call is still looping at the fuel bound). -/
def connResult (res : Option (Int × MqttUtility × List TraceEvent)) : Option Int :=
  res.map fun p => p.1

/-- The object state after a begin / checkConnection call. -/
def connState (res : Option (Int × MqttUtility × List TraceEvent)) :
    Option MqttUtility :=
  res.map fun p => p.2.1

/-- The transport call trace of a begin / checkConnection call. -/
def connTrace (res : Option (Int × MqttUtility × List TraceEvent)) :
    List TraceEvent :=
  match res with
  | none => []
  | some (_, _, tr) => tr

theorem isJoinEvent_pskEventV1 (u : MqttUtility) :
    isJoinEvent (pskEventV1 u) = true := by
  unfold pskEventV1
  by_cases h : pskOpenV1 u.psk <;> simp [h, isJoinEvent]

theorem isBrokerEvent_pskEventV1 (u : MqttUtility) :
    isBrokerEvent (pskEventV1 u) = false := by
  unfold pskEventV1
  by_cases h : pskOpenV1 u.psk <;> simp [h, isBrokerEvent]

/-! ## Evaluation lemmas for beginV1 / reconnectV1 / checkConnectionV1 -/

/-- begin with both parameters present and an always-failing join, positive
budget b: times out after b + 1 attempts. -/
theorem beginV1_allFail (u : MqttUtility) (env : Env) (b fuel : Nat)
    (hb : 0 < b) (hr : u.retry = b) (hs : u.ssid ≠ none) (hh : u.host ≠ none)
    (hfail : ∀ k, env.joinResult k = false) (hfuel : b + 1 ≤ fuel) :
    beginV1 u env fuel =
      some (CONN_WIFI_TIMEOUT, { u with status := CONN_WIFI_TIMEOUT },
        List.replicate (b + 1) (pskEventV1 u)) := by
  subst hr
  have hloop := beginJoinLoop_allFail env.joinResult u.retry hb hfail fuel 0
    (by omega) (by omega)
  simp [beginV1, hs, hh, hloop]

/-- begin with both parameters present, when the join loop joins after n
attempts and the broker connect succeeds. -/
theorem beginV1_joined_ok (u : MqttUtility) (env : Env) (fuel n : Nat)
    (hs : u.ssid ≠ none) (hh : u.host ≠ none) (hm : env.mqttConnectOk = true)
    (hjoin : beginJoinLoop env.joinResult u.retry 0 fuel = .joined n) :
    beginV1 u env fuel =
      some (CONN_CONNECTED, { u with init := true, status := CONN_CONNECTED },
        List.replicate n (pskEventV1 u) ++
          [.brokerConnect u.host u.port]) := by
  simp [beginV1, hs, hh, hjoin, hm]

/-- begin with both parameters present, when the join loop joins after n
attempts and the broker connect fails. -/
theorem beginV1_joined_fail (u : MqttUtility) (env : Env) (fuel n : Nat)
    (hs : u.ssid ≠ none) (hh : u.host ≠ none) (hm : env.mqttConnectOk = false)
    (hjoin : beginJoinLoop env.joinResult u.retry 0 fuel = .joined n) :
    beginV1 u env fuel =
      some (CONN_ERR_MQTT,
        { u with mqttErr := env.mqttConnectError, status := CONN_ERR_MQTT },
        List.replicate n (pskEventV1 u) ++
          [.brokerConnect u.host u.port, .wifiEnd]) := by
  simp [beginV1, hs, hh, hjoin, hm]

/-- reconnect called with CONN_NO_WIFI reduces to its WiFi-join case. -/
theorem reconnectV1_noWifi (u : MqttUtility) (env : Env) (fuel : Nat) :
    reconnectV1 u env CONN_NO_WIFI fuel =
      match reconnectJoinLoop env.joinResult u.retry 0 fuel with
      | .outOfFuel => none
      | .timedOut n =>
        some (CONN_WIFI_TIMEOUT,
          List.replicate n (.joinAuth u.ssid u.psk))
      | .joined n =>
        if env.mqttConnectOk then
          some (CONN_OK,
            List.replicate n (.joinAuth u.ssid u.psk) ++
              [.brokerConnect u.host u.port])
        else
          some (CONN_ERR_MQTT,
            List.replicate n (.joinAuth u.ssid u.psk) ++
              [.brokerConnect u.host u.port, .wifiEnd]) := by
  simp [reconnectV1, CONN_NO_WIFI, CONN_OK, CONN_NO_MQTT]

/-- checkConnection after a successful connect, with the network reported
absent, runs the reconnect WiFi-join case and leaves the object unchanged. -/
theorem checkConnectionV1_noWifi (u : MqttUtility) (env : Env) (fuel : Nat)
    (hinit : u.init = true) (hwifi : env.wifiConnected = false) :
    checkConnectionV1 u env fuel =
      match reconnectJoinLoop env.joinResult u.retry 0 fuel with
      | .outOfFuel => none
      | .timedOut n =>
        some (CONN_WIFI_TIMEOUT, u,
          List.replicate n (.joinAuth u.ssid u.psk))
      | .joined n =>
        if env.mqttConnectOk then
          some (CONN_OK, u,
            List.replicate n (.joinAuth u.ssid u.psk) ++
              [.brokerConnect u.host u.port])
        else
          some (CONN_ERR_MQTT, u,
            List.replicate n (.joinAuth u.ssid u.psk) ++
              [.brokerConnect u.host u.port, .wifiEnd]) := by
  have hst : getConnectionStatus env = CONN_NO_WIFI := by
    simp [getConnectionStatus, hwifi]
  rw [checkConnectionV1, hinit, hst, reconnectV1_noWifi]
  cases reconnectJoinLoop env.joinResult u.retry 0 fuel with
  | outOfFuel => rfl
  | timedOut n => rfl
  | joined n => by_cases hm : env.mqttConnectOk <;> simp [hm]

/-- Neither checkConnection nor reconnect assigns an object field: the state
in a completed call's result is the input state. -/
theorem checkConnectionV1_state (u : MqttUtility) (env : Env) (fuel : Nat)
    (r : Int) (u2 : MqttUtility) (tr : List TraceEvent)
    (h : checkConnectionV1 u env fuel = some (r, u2, tr)) : u2 = u := by
  unfold checkConnectionV1 at h
  cases hi : u.init with
  | false =>
    rw [hi] at h
    simp at h
    exact h.2.1.symm
  | true =>
    rw [hi] at h
    simp only [Bool.not_true, Bool.false_eq_true, if_false] at h
    cases hr : reconnectV1 u env (getConnectionStatus env) fuel with
    | none => rw [hr] at h; simp at h
    | some p =>
      rw [hr] at h
      obtain ⟨r2, tr2⟩ := p
      simp at h
      exact h.2.1.symm

/-! ## Concrete fixtures used by counterexamples and witnesses -/

/-- A fully configured object after a successful connect: ssid "net",
psk "pw", broker "broker":1883, retry budget 3, _init set. -/
def uBase : MqttUtility :=
  ⟨some "net", some "pw", some "broker", 1883, 3, true, 123, 3⟩

/-- A collaborator whose network join fails on every attempt. -/
def envAllFail : Env := ⟨fun _ => false, false, false, true, 0⟩

/-- A collaborator whose join succeeds at once and whose broker connect
succeeds; WiFi.status() reports the network absent. -/
def envJoinOk : Env := ⟨fun _ => true, false, false, true, 0⟩

/-- A collaborator whose join succeeds at once and whose broker connect
fails with the MqttClient diagnostic code -2. -/
def envJoinOkMqttFail : Env := ⟨fun _ => true, false, false, false, -2⟩

/-- A collaborator whose join fails on attempts 0 and 1 and succeeds from
attempt 2 on. -/
def envThirdTry : Env := ⟨fun k => decide (2 ≤ k), false, false, true, 0⟩

/-- C7: For every integer i outside [0, 100], setWifiRetry(i) returns false
and leaves the whole object - in particular the stored retry budget -
unchanged; for every i inside [0, 100], it returns true and the stored
budget afterwards equals i. -/
theorem setWifiRetry_spec (u : MqttUtility) (i : Int) :
    ((i < 0 ∨ 100 < i) → setWifiRetry u i = (false, u)) ∧
    (0 ≤ i → i ≤ 100 →
      setWifiRetry u i = (true, { u with retry := i.toNat }) ∧
      ((setWifiRetry u i).2.retry : Int) = i) := by
  constructor
  · intro h
    unfold setWifiRetry
    rw [if_pos (by omega)]
  · intro h1 h2
    unfold setWifiRetry
    rw [if_neg (by omega)]
    exact ⟨rfl, by simp [Int.toNat_of_nonneg h1]⟩

/-- Witness for C7 at i = 101 (rejected, object kept) and i = 7 (accepted,
budget updated to 7). -/
theorem setWifiRetry_spec_witness :
    setWifiRetry uBase 101 = (false, uBase) ∧
    (setWifiRetry uBase 7 = (true, { uBase with retry := (7 : Int).toNat }) ∧
      ((setWifiRetry uBase 7).2.retry : Int) = 7) :=
  ⟨(setWifiRetry_spec uBase 101).1 (by decide),
   (setWifiRetry_spec uBase 7).2 (by decide) (by decide)⟩

/-- C6 counterexample: with network name set to the empty string (and a
broker host present), begin does not return CONN_NO_PARAMS and does perform
transport I/O - it joins and connects, returning CONN_CONNECTED with a
two-call trace.  The claim that an empty network name is rejected with zero
I/O is therefore false of the code. -/
theorem beginV1_empty_ssid_counterexample :
    ({ uBase with ssid := some "", init := false } : MqttUtility).ssid =
      some "" ∧
    beginV1 { uBase with ssid := some "", init := false } envJoinOk 1 =
      some (CONN_CONNECTED,
        { uBase with ssid := some "", init := true, status := CONN_CONNECTED },
        [TraceEvent.joinOpen (some ""),
         TraceEvent.brokerConnect (some "broker") 1883]) ∧
    CONN_CONNECTED ≠ CONN_NO_PARAMS ∧
    connTrace (beginV1 { uBase with ssid := some "", init := false }
      envJoinOk 1) ≠ [] := by
  decide

/-- C6 (amended): begin returns CONN_NO_PARAMS, leaving the object unchanged
and performing no transport I/O, exactly when the network name or the broker
host is NULL (unset); an empty string is not rejected and the join is
attempted. -/
theorem beginV1_no_params_iff (u : MqttUtility) (env : Env) (fuel : Nat) :
    beginV1 u env fuel = some (CONN_NO_PARAMS, u, []) ↔
      (u.ssid = none ∨ u.host = none) := by
  constructor
  · intro h
    by_contra hn
    push_neg at hn
    obtain ⟨hs, hh⟩ := hn
    cases hl : beginJoinLoop env.joinResult u.retry 0 fuel with
    | outOfFuel => simp [beginV1, hl, hs, hh] at h
    | timedOut n =>
      simp [beginV1, hl, hs, hh, CONN_WIFI_TIMEOUT, CONN_NO_PARAMS] at h
    | joined n =>
      by_cases hm : env.mqttConnectOk
      · simp [beginV1, hl, hs, hh, hm, CONN_CONNECTED, CONN_NO_PARAMS] at h
      · simp [beginV1, hl, hs, hh, hm, CONN_ERR_MQTT, CONN_NO_PARAMS] at h
  · intro h
    unfold beginV1
    rw [if_pos h]

/-- C3 counterexample: the version 1 library's configureTopic always writes
the dev_cla key; for a device_class equal to the "None" sentinel the payload
still carries dev_cla = "None", contradicting the claim that the key is
absent. -/
theorem configureTopicDocV1_none_counterexample :
    (⟨"None", 30, "Soil", "home/soil", "soil1", "%", "tpl",
        "homeassistant/sensor/soil1/config"⟩ : Mdev).device_class = "None" ∧
    (configureTopicDocV1
        ⟨"None", 30, "Soil", "home/soil", "soil1", "%", "tpl",
          "homeassistant/sensor/soil1/config"⟩).lookup "dev_cla" =
      some (JVal.str "None") := by
  constructor
  · rfl
  · rfl

/-- C3 (amended): the version 1.1 library's configureTopic omits the dev_cla
key exactly when device_class equals the "None" sentinel and otherwise binds
it to the device_class value; the version 1 library always binds dev_cla to
the device_class value, sentinel or not. -/
theorem configureTopic_dev_cla (d : Mdev) :
    (configureTopicDocV11 d).lookup "dev_cla" =
      (if d.device_class = "None" then none
       else some (JVal.str d.device_class)) ∧
    (configureTopicDocV1 d).lookup "dev_cla" =
      some (JVal.str d.device_class) := by
  constructor
  · by_cases h : d.device_class = "None"
    · simp only [configureTopicDocV11, h, ne_eq, not_true_eq_false, if_false,
        if_pos, List.nil_append]
      rfl
    · simp only [configureTopicDocV11, ne_eq, h, not_false_eq_true, if_true,
        if_neg, List.cons_append]
      rfl
  · rfl

/-- C1: With a positive retry budget b (at most 100) and a join collaborator
that fails on every attempt, begin makes exactly b + 1 join attempts before
returning CONN_WIFI_TIMEOUT - the budget+1 convention - and the reconnect
path of checkConnection makes exactly the same number of attempts for the
same budget: its `_retry == count` test fires at the same iteration as
begin's `count >= _retry`. -/
theorem connect_reconnect_attempts (u : MqttUtility) (env : Env) (b fuel : Nat)
    (hb : 0 < b) (hb100 : b ≤ 100) (hr : u.retry = b)
    (hs : u.ssid ≠ none) (hh : u.host ≠ none)
    (hinit : u.init = true) (hwifi : env.wifiConnected = false)
    (hfail : ∀ k, env.joinResult k = false) (hfuel : b + 1 ≤ fuel) :
    connResult (beginV1 u env fuel) = some CONN_WIFI_TIMEOUT ∧
    joinCount (connTrace (beginV1 u env fuel)) = b + 1 ∧
    connResult (checkConnectionV1 u env fuel) = some CONN_WIFI_TIMEOUT ∧
    joinCount (connTrace (checkConnectionV1 u env fuel)) =
      joinCount (connTrace (beginV1 u env fuel)) := by
  subst hr
  have h1 := beginV1_allFail u env u.retry fuel hb rfl hs hh hfail hfuel
  have hloop2 := reconnectJoinLoop_allFail env.joinResult u.retry hb hfail
    fuel 0 (by omega) (by omega)
  have h2 := checkConnectionV1_noWifi u env fuel hinit hwifi
  simp only [hloop2] at h2
  refine ⟨?_, ?_, ?_, ?_⟩
  · rw [h1]; rfl
  · rw [h1]
    simp [connTrace, joinCount_replicate _ _ (isJoinEvent_pskEventV1 u)]
  · rw [h2]; rfl
  · rw [h1, h2]
    simp [connTrace, joinCount_replicate _ _ (isJoinEvent_pskEventV1 u),
      joinCount_replicate _ (TraceEvent.joinAuth u.ssid u.psk) rfl]

/-- Witness for C1 at budget 3: both paths make exactly 4 join attempts. -/
theorem connect_reconnect_attempts_witness :
    connResult (beginV1 uBase envAllFail 4) = some CONN_WIFI_TIMEOUT ∧
    joinCount (connTrace (beginV1 uBase envAllFail 4)) = 3 + 1 ∧
    connResult (checkConnectionV1 uBase envAllFail 4) = some CONN_WIFI_TIMEOUT ∧
    joinCount (connTrace (checkConnectionV1 uBase envAllFail 4)) =
      joinCount (connTrace (beginV1 uBase envAllFail 4)) :=
  connect_reconnect_attempts uBase envAllFail 3 4 (by decide) (by decide) rfl
    (by decide) (by decide) rfl rfl (fun _ => rfl) (by decide)

/-- C4: With retry budget 0, begin never returns CONN_WIFI_TIMEOUT;
if the collaborator fails the first N attempts and succeeds on attempt
N + 1, begin returns (after exactly N + 1 join attempts); and if the
collaborator never succeeds, the join loop outlives any fuel bound - the
call never returns. -/
theorem connect_unbounded_retry (u : MqttUtility) (env : Env) (N fuel : Nat)
    (hr : u.retry = 0) (hs : u.ssid ≠ none) (hh : u.host ≠ none) :
    (∀ r, connResult (beginV1 u env fuel) = some r →
      r ≠ CONN_WIFI_TIMEOUT) ∧
    ((∀ k, k < N → env.joinResult k = false) → env.joinResult N = true →
      N + 1 ≤ fuel →
      (beginV1 u env fuel).isSome = true ∧
      joinCount (connTrace (beginV1 u env fuel)) = N + 1) ∧
    ((∀ k, env.joinResult k = false) → beginV1 u env fuel = none) := by
  refine ⟨?_, ?_, ?_⟩
  · intro r hres hEq
    subst hEq
    cases hl : beginJoinLoop env.joinResult u.retry 0 fuel with
    | outOfFuel =>
      have hnone : beginV1 u env fuel = none := by simp [beginV1, hs, hh, hl]
      rw [hnone] at hres
      simp [connResult] at hres
    | timedOut n =>
      have hpos := beginJoinLoop_timedOut_pos env.joinResult u.retry fuel 0 n hl
      omega
    | joined n =>
      cases hm : env.mqttConnectOk with
      | true =>
        rw [beginV1_joined_ok u env fuel n hs hh hm hl] at hres
        simp [connResult, CONN_CONNECTED, CONN_WIFI_TIMEOUT] at hres
      | false =>
        rw [beginV1_joined_fail u env fuel n hs hh hm hl] at hres
        simp [connResult, CONN_ERR_MQTT, CONN_WIFI_TIMEOUT] at hres
  · intro hbefore hN hfuel
    have hloop := beginJoinLoop_firstSuccess env.joinResult N hbefore hN
      fuel 0 (by omega) (by omega)
    have hloop2 : beginJoinLoop env.joinResult u.retry 0 fuel =
        .joined (N + 1) := by rw [hr]; exact hloop
    cases hm : env.mqttConnectOk with
    | true =>
      rw [beginV1_joined_ok u env fuel (N + 1) hs hh hm hloop2]
      refine ⟨rfl, ?_⟩
      have ht : joinCount [TraceEvent.brokerConnect u.host u.port] = 0 := rfl
      simp only [connTrace, joinCount_append,
        joinCount_replicate _ _ (isJoinEvent_pskEventV1 u), ht]
    | false =>
      rw [beginV1_joined_fail u env fuel (N + 1) hs hh hm hloop2]
      refine ⟨rfl, ?_⟩
      have ht : joinCount
          [TraceEvent.brokerConnect u.host u.port, TraceEvent.wifiEnd] = 0 :=
        rfl
      simp only [connTrace, joinCount_append,
        joinCount_replicate _ _ (isJoinEvent_pskEventV1 u), ht]
  · intro hfail
    have h0 := beginJoinLoop_allFail_zero env.joinResult hfail fuel 0
    have h0' : beginJoinLoop env.joinResult u.retry 0 fuel = .outOfFuel := by
      rw [hr]; exact h0
    simp [beginV1, hs, hh, h0']

/-- Witness for C4 with a collaborator failing attempts 0 and 1 and
succeeding from attempt 2: begin returns after exactly 3 join attempts. -/
theorem connect_unbounded_retry_witness :
    (∀ r, connResult (beginV1 { uBase with retry := 0 } envThirdTry 3) =
        some r → r ≠ CONN_WIFI_TIMEOUT) ∧
    ((∀ k, k < 2 → envThirdTry.joinResult k = false) →
      envThirdTry.joinResult 2 = true → 2 + 1 ≤ 3 →
      (beginV1 { uBase with retry := 0 } envThirdTry 3).isSome = true ∧
      joinCount (connTrace (beginV1 { uBase with retry := 0 } envThirdTry 3)) =
        2 + 1) ∧
    ((∀ k, envThirdTry.joinResult k = false) →
      beginV1 { uBase with retry := 0 } envThirdTry 3 = none) :=
  connect_unbounded_retry { uBase with retry := 0 } envThirdTry 2 3 rfl
    (by decide) (by decide)

/-- C5: In every begin call whose join loop succeeds, the broker connect is
attempted exactly once; if it fails, the call returns CONN_ERR_MQTT, records
the broker client's own diagnostic code in _mqttErr, records CONN_ERR_MQTT
in _status, and the trace shows the WiFi.end teardown; if it succeeds the
call returns CONN_CONNECTED.  Either way the single brokerConnect event in
the trace shows no further broker attempt is made. -/
theorem connect_broker_once (u : MqttUtility) (env : Env) (fuel n : Nat)
    (hs : u.ssid ≠ none) (hh : u.host ≠ none)
    (hjoin : beginJoinLoop env.joinResult u.retry 0 fuel = .joined n) :
    brokerCount (connTrace (beginV1 u env fuel)) = 1 ∧
    (env.mqttConnectOk = false →
      connResult (beginV1 u env fuel) = some CONN_ERR_MQTT ∧
      connState (beginV1 u env fuel) =
        some { u with mqttErr := env.mqttConnectError,
                      status := CONN_ERR_MQTT } ∧
      TraceEvent.wifiEnd ∈ connTrace (beginV1 u env fuel)) ∧
    (env.mqttConnectOk = true →
      connResult (beginV1 u env fuel) = some CONN_CONNECTED) := by
  cases hm : env.mqttConnectOk with
  | true =>
    rw [beginV1_joined_ok u env fuel n hs hh hm hjoin]
    refine ⟨?_, ?_, fun _ => rfl⟩
    · have ht : brokerCount [TraceEvent.brokerConnect u.host u.port] = 1 := rfl
      simp only [connTrace, brokerCount_append,
        brokerCount_replicate _ _ (isBrokerEvent_pskEventV1 u), ht]
    · intro hc
      simp at hc
  | false =>
    rw [beginV1_joined_fail u env fuel n hs hh hm hjoin]
    refine ⟨?_, fun _ => ⟨rfl, rfl, ?_⟩, ?_⟩
    · have ht : brokerCount
          [TraceEvent.brokerConnect u.host u.port, TraceEvent.wifiEnd] = 1 :=
        rfl
      simp only [connTrace, brokerCount_append,
        brokerCount_replicate _ _ (isBrokerEvent_pskEventV1 u), ht]
    · simp [connTrace]
    · intro hc
      simp at hc

/-- Witness for C5: join succeeds at once, broker connect fails with
diagnostic -2; begin makes one broker attempt, returns CONN_ERR_MQTT and
records the diagnostic. -/
theorem connect_broker_once_witness :
    brokerCount (connTrace (beginV1 uBase envJoinOkMqttFail 1)) = 1 ∧
    (envJoinOkMqttFail.mqttConnectOk = false →
      connResult (beginV1 uBase envJoinOkMqttFail 1) = some CONN_ERR_MQTT ∧
      connState (beginV1 uBase envJoinOkMqttFail 1) =
        some { uBase with mqttErr := envJoinOkMqttFail.mqttConnectError,
                          status := CONN_ERR_MQTT } ∧
      TraceEvent.wifiEnd ∈ connTrace (beginV1 uBase envJoinOkMqttFail 1)) ∧
    (envJoinOkMqttFail.mqttConnectOk = true →
      connResult (beginV1 uBase envJoinOkMqttFail 1) = some CONN_CONNECTED) :=
  connect_broker_once uBase envJoinOkMqttFail 1 1 (by decide) (by decide) rfl

/-- checkConnection with the network absent, when the reconnect join loop
joins after n attempts and the broker connect succeeds. -/
theorem checkConnectionV1_joined_ok (u : MqttUtility) (env : Env)
    (fuel n : Nat) (hinit : u.init = true) (hwifi : env.wifiConnected = false)
    (hm : env.mqttConnectOk = true)
    (hjoin : reconnectJoinLoop env.joinResult u.retry 0 fuel = .joined n) :
    checkConnectionV1 u env fuel =
      some (CONN_OK, u,
        List.replicate n (.joinAuth u.ssid u.psk) ++
          [.brokerConnect u.host u.port]) := by
  have hc := checkConnectionV1_noWifi u env fuel hinit hwifi
  simp only [hjoin, hm, if_true] at hc
  exact hc

/-- checkConnection with the network absent, when the reconnect join loop
joins after n attempts and the broker connect fails. -/
theorem checkConnectionV1_joined_fail (u : MqttUtility) (env : Env)
    (fuel n : Nat) (hinit : u.init = true) (hwifi : env.wifiConnected = false)
    (hm : env.mqttConnectOk = false)
    (hjoin : reconnectJoinLoop env.joinResult u.retry 0 fuel = .joined n) :
    checkConnectionV1 u env fuel =
      some (CONN_ERR_MQTT, u,
        List.replicate n (.joinAuth u.ssid u.psk) ++
          [.brokerConnect u.host u.port, .wifiEnd]) := by
  have hc := checkConnectionV1_noWifi u env fuel hinit hwifi
  simp only [hjoin, hm, Bool.false_eq_true, if_false] at hc
  exact hc

/-- C2 (version 1 code bug): begin's psk test is inverted.  With the
non-empty psk "secret", version 1 joins in OPEN mode (WiFi.begin(ssid)
only) while version 1.1 - the same method with the corrected
`strcmp(_psk, "") == 0` test - joins authenticated; with the empty psk "",
version 1 joins authenticated (passing the empty psk) while version 1.1
joins open. -/
theorem beginV1_psk_mode_inverted :
    connTrace (beginV1 { uBase with psk := some "secret", init := false }
        envJoinOk 1) =
      [TraceEvent.joinOpen (some "net"),
       TraceEvent.brokerConnect (some "broker") 1883] ∧
    connTrace (beginV11 { uBase with psk := some "secret", init := false }
        envJoinOk 1) =
      [TraceEvent.joinAuth (some "net") (some "secret"),
       TraceEvent.brokerConnect (some "broker") 1883] ∧
    connTrace (beginV1 { uBase with psk := some "", init := false }
        envJoinOk 1) =
      [TraceEvent.joinAuth (some "net") (some ""),
       TraceEvent.brokerConnect (some "broker") 1883] ∧
    connTrace (beginV11 { uBase with psk := some "", init := false }
        envJoinOk 1) =
      [TraceEvent.joinOpen (some "net"),
       TraceEvent.brokerConnect (some "broker") 1883] := by
  decide

/-- C8 counterexample: with a NULL psk, begin joins open
(WiFi.begin(ssid)) whereas checkConnection's reconnect path joins
authenticated (WiFi.begin(ssid, psk)); and on full success begin returns
CONN_CONNECTED while checkConnection returns CONN_OK.  The two sequences
are therefore not the same. -/
theorem checkConnection_not_same_as_connect :
    connTrace (beginV1 { uBase with psk := none } envJoinOk 1) =
      [TraceEvent.joinOpen (some "net"),
       TraceEvent.brokerConnect (some "broker") 1883] ∧
    connTrace (checkConnectionV1 { uBase with psk := none } envJoinOk 1) =
      [TraceEvent.joinAuth (some "net") none,
       TraceEvent.brokerConnect (some "broker") 1883] ∧
    TraceEvent.joinOpen (some "net") ≠ TraceEvent.joinAuth (some "net") none ∧
    connResult (beginV1 { uBase with psk := none } envJoinOk 1) =
      some CONN_CONNECTED ∧
    connResult (checkConnectionV1 { uBase with psk := none } envJoinOk 1) =
      some CONN_OK ∧
    CONN_CONNECTED ≠ CONN_OK := by
  decide

/-- C8 (amended): when checkConnection observes the network absent it
applies the same retry budget as begin - with an always-failing join and
budget b it returns CONN_WIFI_TIMEOUT after exactly b + 1 attempts, the
same count as begin - and after a successful join it makes exactly one
broker connect, returning CONN_ERR_MQTT (with WiFi.end teardown) on failure
and CONN_OK (not begin's CONN_CONNECTED) on success; but every join attempt
it makes is the authenticated WiFi.begin(ssid, psk), regardless of the psk,
unlike begin's open-vs-authenticated selection. -/
theorem checkConnection_reconnect_policy (u : MqttUtility) (env : Env)
    (b fuel n : Nat) (hinit : u.init = true)
    (hwifi : env.wifiConnected = false) :
    ((0 < b → u.retry = b → (∀ k, env.joinResult k = false) →
      b + 1 ≤ fuel →
      connResult (checkConnectionV1 u env fuel) = some CONN_WIFI_TIMEOUT ∧
      joinCount (connTrace (checkConnectionV1 u env fuel)) = b + 1 ∧
      ∀ e ∈ connTrace (checkConnectionV1 u env fuel),
        e = TraceEvent.joinAuth u.ssid u.psk)) ∧
    (reconnectJoinLoop env.joinResult u.retry 0 fuel = .joined n →
      brokerCount (connTrace (checkConnectionV1 u env fuel)) = 1 ∧
      (env.mqttConnectOk = true →
        connResult (checkConnectionV1 u env fuel) = some CONN_OK) ∧
      (env.mqttConnectOk = false →
        connResult (checkConnectionV1 u env fuel) = some CONN_ERR_MQTT ∧
        TraceEvent.wifiEnd ∈ connTrace (checkConnectionV1 u env fuel))) := by
  constructor
  · intro hb hr hfail hfuel
    subst hr
    have hloop := reconnectJoinLoop_allFail env.joinResult u.retry hb hfail
      fuel 0 (by omega) (by omega)
    have hc := checkConnectionV1_noWifi u env fuel hinit hwifi
    simp only [hloop] at hc
    rw [hc]
    refine ⟨rfl, ?_, ?_⟩
    · simp [connTrace,
        joinCount_replicate _ (TraceEvent.joinAuth u.ssid u.psk) rfl]
    · intro e he
      simp only [connTrace] at he
      exact List.eq_of_mem_replicate he
  · intro hjoin
    cases hm : env.mqttConnectOk with
    | true =>
      rw [checkConnectionV1_joined_ok u env fuel n hinit hwifi hm hjoin]
      refine ⟨?_, fun _ => rfl, ?_⟩
      · have ht : brokerCount [TraceEvent.brokerConnect u.host u.port] = 1 :=
          rfl
        simp only [connTrace, brokerCount_append,
          brokerCount_replicate _ (TraceEvent.joinAuth u.ssid u.psk) rfl, ht]
      · intro hcf
        simp at hcf
    | false =>
      rw [checkConnectionV1_joined_fail u env fuel n hinit hwifi hm hjoin]
      refine ⟨?_, ?_, fun _ => ⟨rfl, ?_⟩⟩
      · have ht : brokerCount
            [TraceEvent.brokerConnect u.host u.port, TraceEvent.wifiEnd] = 1 :=
          rfl
        simp only [connTrace, brokerCount_append,
          brokerCount_replicate _ (TraceEvent.joinAuth u.ssid u.psk) rfl, ht]
      · intro hcf
        simp at hcf
      · simp [connTrace]

/-- Witness for C8 (amended): network absent, join succeeds at once, broker
connects; checkConnection makes one broker connect and returns CONN_OK. -/
theorem checkConnection_reconnect_policy_witness :
    ((0 < 3 → uBase.retry = 3 → (∀ k, envJoinOk.joinResult k = false) →
      3 + 1 ≤ 1 →
      connResult (checkConnectionV1 uBase envJoinOk 1) =
        some CONN_WIFI_TIMEOUT ∧
      joinCount (connTrace (checkConnectionV1 uBase envJoinOk 1)) = 3 + 1 ∧
      ∀ e ∈ connTrace (checkConnectionV1 uBase envJoinOk 1),
        e = TraceEvent.joinAuth uBase.ssid uBase.psk)) ∧
    (reconnectJoinLoop envJoinOk.joinResult uBase.retry 0 1 = .joined 1 →
      brokerCount (connTrace (checkConnectionV1 uBase envJoinOk 1)) = 1 ∧
      (envJoinOk.mqttConnectOk = true →
        connResult (checkConnectionV1 uBase envJoinOk 1) = some CONN_OK) ∧
      (envJoinOk.mqttConnectOk = false →
        connResult (checkConnectionV1 uBase envJoinOk 1) =
          some CONN_ERR_MQTT ∧
        TraceEvent.wifiEnd ∈ connTrace (checkConnectionV1 uBase envJoinOk 1))) :=
  checkConnection_reconnect_policy uBase envJoinOk 3 1 1 rfl rfl

/-- C10: one completed checkConnection call, and any sequence of completed
checkConnection calls, leaves _status and _mqttErr exactly as connect last
recorded them - neither checkConnection nor its reconnect helper assigns
either field. -/
theorem checkConnection_frame (u : MqttUtility) (env : Env) (fuel : Nat)
    (envs : List Env) :
    (∀ r u2 tr, checkConnectionV1 u env fuel = some (r, u2, tr) →
      u2.status = u.status ∧ u2.mqttErr = u.mqttErr) ∧
    (iterateChecks fuel u envs).status = u.status ∧
    (iterateChecks fuel u envs).mqttErr = u.mqttErr := by
  refine ⟨?_, ?_⟩
  · intro r u2 tr h
    have hu := checkConnectionV1_state u env fuel r u2 tr h
    rw [hu]
    exact ⟨rfl, rfl⟩
  · induction envs generalizing u with
    | nil => exact ⟨rfl, rfl⟩
    | cons e es ih =>
      rcases hcall : checkConnectionV1 u e fuel with _ | ⟨r, u2, tr⟩
      · simp [iterateChecks, hcall]
      · have hu : u2 = u := checkConnectionV1_state u e fuel r u2 tr hcall
        simp only [iterateChecks, hcall]
        rw [hu]
        exact ih u

/-- Witness for C10: a healthy check followed by one whose broker reconnect
fails; _status stays 3 and _mqttErr stays 123 as recorded by connect. -/
theorem checkConnection_frame_witness :
    (∀ r u2 tr, checkConnectionV1 uBase envJoinOk 1 = some (r, u2, tr) →
      u2.status = uBase.status ∧ u2.mqttErr = uBase.mqttErr) ∧
    (iterateChecks 1 uBase [envJoinOk, envJoinOkMqttFail]).status =
      uBase.status ∧
    (iterateChecks 1 uBase [envJoinOk, envJoinOkMqttFail]).mqttErr =
      uBase.mqttErr :=
  checkConnection_frame uBase envJoinOk 1 [envJoinOk, envJoinOkMqttFail]
